import Mathlib

/-!
Shallow embedding of `src/static/script.js` (the Chat View Controller of the
fireside-chat repository).

The controller is a browser event handler over mutable UI state.  We model the
observable UI state explicitly (transcript nodes, history panel items, input
field, disabled flags, `currentConversationId`, `isLoading`) and add a log of
issued network requests so that "no request is issued" and "the history list is
refetched" are stateable.  Each `async` operation is modelled as a function
from the pre-state and the settled outcome of its `fetch` call(s) to the
post-state after the operation settles (the code is single threaded and the
`isLoading` guard rejects overlapping operations, so the settled state is well
defined).  DOM text inserted through `document.createTextNode` is stored as a
literal string, mirroring that such text is never parsed as HTML.
-/

/-- One entry of the `/api/history` response: `{id, summary, last_modified}`. -/
structure ConvSummary where
  id : String
  summary : String
  last_modified : String
deriving DecidableEq

/-- One entry of the `/api/history/{id}` response: `{role, text}`. -/
structure MessageData where
  role : String
  text : String
deriving DecidableEq

/-- A child node of the `#chat-output` div: either a message div built by
`addMessage` (a `<strong>` role label plus a text node holding the literal
message text) or the `#loading-indicator` div. -/
inductive ChatNode where
  | message (role : String) (text : String)
  | loadingIndicator
deriving DecidableEq

/-- The `<strong>` label `addMessage` renders for a role:
`role === 'user' ? 'You:' : 'Model:'`. -/
def roleLabel (role : String) : String :=
  if role == "user" then "You:" else "Model:"

/-- The visible text of a chat node.  A message div shows the strong label
followed by the text node `' ' + text`; the text is stored literally
(`createTextNode`), never parsed as HTML. -/
def visibleText : ChatNode → String
  | ChatNode.message role text => roleLabel role ++ " " ++ text
  | ChatNode.loadingIndicator => "Model is thinking..."

/-- A child `<li>` of `#history-list`: either a static placeholder written via
`innerHTML` or a conversation entry with its text, tooltip and `active` class. -/
inductive HistoryItem where
  | placeholder (text : String)
  | entry (id : String) (summaryText : String) (title : String) (active : Bool)
deriving DecidableEq

/-- A network request issued by the controller. -/
inductive Request where
  | getHistory
  | getConversation (id : String)
  | postChat (prompt : String) (conversation_id : Option String)
deriving DecidableEq

/-- The observable UI state of the page. -/
structure UIState where
  chatOutput : List ChatNode
  promptInput : String
  sendButtonDisabled : Bool
  promptInputDisabled : Bool
  historyList : List HistoryItem
  currentConversationId : Option String
  isLoading : Bool
  networkLog : List Request
deriving DecidableEq

/-- Settled outcome of `fetch('/api/history')` followed by `response.json()`:
either a parsed array of summaries, or any failure (non-2xx status, transport
rejection, or unparseable body — all reach the same `catch`). -/
inductive HistoryFetchResult where
  | ok (convs : List ConvSummary)
  | failure
deriving DecidableEq

/-- Settled outcome of `fetch('/api/history/' + id)`:
a parsed message array, a non-2xx HTTP status, or a thrown error (transport
rejection or `response.json()` failure) carrying `error.message`. -/
inductive ConvFetchResult where
  | ok (messages : List MessageData)
  | http (status : Nat)
  | reject (msg : String)
deriving DecidableEq

/-- Settled outcome of `fetch('/api/chat', …)`:
a parsed `{response, conversation_id}` body, a non-2xx HTTP status whose body
yields `detail` if it parsed to JSON containing that field, or a thrown error
(transport rejection or success-body parse failure) carrying `error.message`. -/
inductive ChatFetchResult where
  | ok (response : String) (conversation_id : Option String)
  | http (status : Nat) (detail : Option String)
  | reject (msg : String)
deriving DecidableEq

/-- JavaScript `String.prototype.trim()`: strips whitespace from both ends of
the string.  (Modelled structurally over the character list so that it
evaluates inside the kernel; `String.trim` of the standard library computes
the same characters but is defined by well-founded recursion.) -/
def jsTrim (s : String) : String :=
  String.mk (((s.data.dropWhile Char.isWhitespace).reverse.dropWhile Char.isWhitespace).reverse)

/-- `addMessage(role, text)`: appends one message div to `#chat-output`. -/
def addMessage (st : UIState) (role text : String) : UIState :=
  { st with chatOutput := st.chatOutput ++ [ChatNode.message role text] }

/-- `addLoadingIndicator()`: appends the `#loading-indicator` div. -/
def addLoadingIndicator (st : UIState) : UIState :=
  { st with chatOutput := st.chatOutput ++ [ChatNode.loadingIndicator] }

/-- `document.getElementById('loading-indicator')?.remove()` on a node list:
removes the first loading-indicator node, if any. -/
def removeIndicatorList : List ChatNode → List ChatNode
  | [] => []
  | ChatNode.loadingIndicator :: rest => rest
  | n :: rest => n :: removeIndicatorList rest

/-- `removeLoadingIndicator()`: removes the indicator from `#chat-output`. -/
def removeLoadingIndicator (st : UIState) : UIState :=
  { st with chatOutput := removeIndicatorList st.chatOutput }

/-- `clearChatOutput()`: `chatOutput.innerHTML = ''` then the welcome message. -/
def clearChatOutput (st : UIState) : UIState :=
  addMessage { st with chatOutput := [] } "model" "Started a new chat."

/-- `setLoading(loading)`: sets the flag, disables/enables the send button and
the input, and adds or removes the loading indicator. -/
def setLoading (st : UIState) (loading : Bool) : UIState :=
  let st1 := { st with
    isLoading := loading
    sendButtonDisabled := loading
    promptInputDisabled := loading }
  if loading then addLoadingIndicator st1 else removeLoadingIndicator st1

/-- `li.classList.toggle('active', li.dataset.conversationId === cid)`:
placeholders have no `conversationId` dataset, so they never match. -/
def setActiveOpt (cid : Option String) : HistoryItem → HistoryItem
  | HistoryItem.entry i s t _ => HistoryItem.entry i s t (some i == cid)
  | p => p

/-- `li.classList.remove('active')` applied to every active item. -/
def deactivate : HistoryItem → HistoryItem
  | HistoryItem.entry i s t _ => HistoryItem.entry i s t false
  | p => p

/-- The `<li>` list built from a parsed `/api/history` response: the empty
array renders a placeholder, otherwise one entry per conversation with
`active` iff its id equals `currentConversationId`. -/
def renderHistory (convs : List ConvSummary) (cur : Option String) : List HistoryItem :=
  if convs.isEmpty then [HistoryItem.placeholder "No past conversations found."]
  else convs.map fun c =>
    HistoryItem.entry c.id c.summary
      ("ID: " ++ c.id ++ "\nLast Modified: " ++ c.last_modified)
      (some c.id == cur)

/-- `loadHistoryList()`: writes the loading placeholder, issues the request,
then replaces the panel with the rendered list or the error placeholder. -/
def loadHistoryList (st : UIState) (outcome : HistoryFetchResult) : UIState :=
  let st1 := { st with
    historyList := [HistoryItem.placeholder "Loading history..."]
    networkLog := st.networkLog ++ [Request.getHistory] }
  match outcome with
  | HistoryFetchResult.ok convs =>
      { st1 with historyList := renderHistory convs st1.currentConversationId }
  | HistoryFetchResult.failure =>
      { st1 with historyList := [HistoryItem.placeholder "Error loading history."] }

/-- `loadConversation(conversationId)`: no-op while loading; else sets loading,
clears the transcript, adopts the id, re-highlights the history list, fetches
the messages and renders them (404 and other failures become transcript
messages), and finally clears loading. -/
def loadConversation (st : UIState) (conversationId : String)
    (outcome : ConvFetchResult) : UIState :=
  if st.isLoading then st
  else
    let st1 := setLoading st true
    let st2 := clearChatOutput st1
    let st3 := { st2 with
      currentConversationId := some conversationId
      historyList := st2.historyList.map (setActiveOpt (some conversationId))
      networkLog := st2.networkLog ++ [Request.getConversation conversationId] }
    let st4 := match outcome with
      | ConvFetchResult.ok msgs =>
          msgs.foldl (fun s m => addMessage s m.role m.text) st3
      | ConvFetchResult.http status =>
          if status == 404 then
            addMessage st3 "model" "Error: Conversation not found."
          else
            addMessage st3 "model"
              ("Error loading conversation: HTTP error! status: " ++ toString status)
      | ConvFetchResult.reject msg =>
          addMessage st3 "model" ("Error loading conversation: " ++ msg)
    setLoading st4 false

/-- The error text thrown for a non-2xx `/api/chat` response:
`errorData.detail || 'HTTP error! status: ' + status`, where a missing, absent
or falsy (empty) `detail` falls back to the generic message. -/
def httpErrorDetail (status : Nat) (detail : Option String) : String :=
  let fallback := "HTTP error! status: " ++ toString status
  match detail with
  | some d => if d == "" then fallback else d
  | none => fallback

/-- `sendPrompt()`: no-op if the trimmed input is empty or a call is in
flight; else sets loading, optimistically appends the user message, clears the
input, posts `{prompt, conversation_id}`, and on the settled outcome appends
the model reply (adopting a changed conversation id and refetching the history
list) or one error message, always clearing loading at the end. -/
def sendPrompt (st : UIState) (outcome : ChatFetchResult)
    (histOutcome : HistoryFetchResult) : UIState :=
  let promptText := jsTrim st.promptInput
  if promptText == "" || st.isLoading then st
  else
    let st1 := setLoading st true
    let st2 := addMessage st1 "user" promptText
    let st3 := { st2 with
      promptInput := ""
      networkLog := st2.networkLog ++ [Request.postChat promptText st2.currentConversationId] }
    match outcome with
    | ChatFetchResult.ok resp newCid =>
        let st4 := removeLoadingIndicator st3
        let st5 := addMessage st4 "model" resp
        let st6 :=
          if st5.currentConversationId == newCid then st5
          else
            let st6a := { st5 with currentConversationId := newCid }
            let st6b := loadHistoryList st6a histOutcome
            { st6b with
              historyList := st6b.historyList.map (setActiveOpt st6b.currentConversationId) }
        setLoading st6 false
    | ChatFetchResult.http status detail =>
        let st4 := removeLoadingIndicator st3
        let st5 := removeLoadingIndicator st4
        let st6 := addMessage st5 "model" ("Error: " ++ httpErrorDetail status detail)
        setLoading st6 false
    | ChatFetchResult.reject msg =>
        let st4 := removeLoadingIndicator st3
        let st5 := addMessage st4 "model" ("Error: " ++ msg)
        setLoading st5 false

/-- `startNewChat()`: no-op while loading; else resets the conversation id,
re-seeds the transcript with the placeholder, clears the input and removes the
`active` highlight everywhere.  Issues no network request. -/
def startNewChat (st : UIState) : UIState :=
  if st.isLoading then st
  else
    let st1 := { st with currentConversationId := none }
    let st2 := clearChatOutput st1
    { st2 with
      promptInput := ""
      historyList := st2.historyList.map deactivate }

/-- Whether a chat node is a message div (as opposed to the indicator). -/
def ChatNode.isMessage : ChatNode → Bool
  | ChatNode.message _ _ => true
  | ChatNode.loadingIndicator => false

/-- The messages of the transcript, in order, indicator excluded. -/
def messagesOf (l : List ChatNode) : List ChatNode :=
  l.filter ChatNode.isMessage

/-- Whether a node list holds no loading indicator. -/
def indicatorFree : List ChatNode → Bool
  | [] => true
  | ChatNode.loadingIndicator :: _ => false
  | _ :: rest => indicatorFree rest

/-- The `active` flag of a history item (placeholders are never active). -/
def itemActive : HistoryItem → Bool
  | HistoryItem.entry _ _ _ a => a
  | HistoryItem.placeholder _ => false

/-- The `dataset.conversationId` of a history item. -/
def itemId : HistoryItem → Option String
  | HistoryItem.entry i _ _ _ => some i
  | HistoryItem.placeholder _ => none

/-- The UI is interactive: not loading, send control and input enabled, no
loading indicator left in the transcript. -/
def interactive (st : UIState) : Prop :=
  st.isLoading = false ∧ st.sendButtonDisabled = false ∧
    st.promptInputDisabled = false ∧ indicatorFree st.chatOutput = true

/-- The state at page load (before the initial `loadHistoryList()`). -/
def initState : UIState :=
  { chatOutput := []
    promptInput := ""
    sendButtonDisabled := false
    promptInputDisabled := false
    historyList := []
    currentConversationId := none
    isLoading := false
    networkLog := [] }

/-- A state with a chat request in flight (used to exercise the guard). -/
def loadingState : UIState :=
  { initState with
    isLoading := true
    promptInput := "hi"
    sendButtonDisabled := true
    promptInputDisabled := true
    chatOutput := [ChatNode.loadingIndicator] }

/-- An idle state whose input field holds the prompt `hi`. -/
def promptState : UIState :=
  { initState with promptInput := "hi" }

/-- A one-conversation backend history response containing id `c1`. -/
def c1History : List ConvSummary :=
  [{ id := "c1", summary := "hi", last_modified := "2024-01-01" }]

/-! ### Helper lemmas about the transcript node list -/

theorem messagesOf_append (a b : List ChatNode) :
    messagesOf (a ++ b) = messagesOf a ++ messagesOf b := by
  simp [messagesOf, List.filter_append]

theorem messagesOf_removeIndicatorList (l : List ChatNode) :
    messagesOf (removeIndicatorList l) = messagesOf l := by
  induction l with
  | nil => rfl
  | cons n rest ih =>
    cases n with
    | message r t =>
      simp [removeIndicatorList, messagesOf, List.filter, ChatNode.isMessage] at ih ⊢
      exact ih
    | loadingIndicator => simp [removeIndicatorList, messagesOf, List.filter, ChatNode.isMessage]

theorem removeIndicatorList_of_free (l : List ChatNode)
    (h : indicatorFree l = true) : removeIndicatorList l = l := by
  induction l with
  | nil => rfl
  | cons n rest ih =>
    cases n with
    | message r t =>
      simp [indicatorFree] at h
      simp [removeIndicatorList, ih h]
    | loadingIndicator => simp [indicatorFree] at h

theorem removeIndicatorList_append_of_free (l r : List ChatNode)
    (h : indicatorFree l = true) :
    removeIndicatorList (l ++ r) = l ++ removeIndicatorList r := by
  induction l with
  | nil => rfl
  | cons n rest ih =>
    cases n with
    | message a b =>
      simp [indicatorFree] at h
      simp [removeIndicatorList, ih h]
    | loadingIndicator => simp [indicatorFree] at h

theorem indicatorFree_append (a b : List ChatNode) :
    indicatorFree (a ++ b) = (indicatorFree a && indicatorFree b) := by
  induction a with
  | nil => rfl
  | cons n rest ih =>
    cases n with
    | message r t => simp [indicatorFree, ih]
    | loadingIndicator => simp [indicatorFree]

theorem indicatorFree_messagesOf (l : List ChatNode) :
    indicatorFree (messagesOf l) = true := by
  induction l with
  | nil => rfl
  | cons n rest ih =>
    cases n with
    | message r t => simpa [messagesOf, List.filter, ChatNode.isMessage, indicatorFree] using ih
    | loadingIndicator => simpa [messagesOf, List.filter, ChatNode.isMessage] using ih

theorem foldl_addMessage (msgs : List MessageData) (st : UIState) :
    msgs.foldl (fun s m => addMessage s m.role m.text) st
      = { st with chatOutput :=
            st.chatOutput ++ msgs.map (fun m => ChatNode.message m.role m.text) } := by
  induction msgs generalizing st with
  | nil => simp
  | cons m rest ih =>
    rw [List.foldl_cons, ih]
    simp [addMessage, List.append_assoc]

/-! ### Characterizations of `sendPrompt`, one per settled outcome -/

theorem sendPrompt_http_eq (st : UIState) (status : Nat) (detail : Option String)
    (hist : HistoryFetchResult) (h : st.isLoading = false)
    (hp : jsTrim st.promptInput ≠ "") :
    sendPrompt st (ChatFetchResult.http status detail) hist =
      { chatOutput := removeIndicatorList (removeIndicatorList (removeIndicatorList
            (st.chatOutput ++ [ChatNode.loadingIndicator,
              ChatNode.message "user" (jsTrim st.promptInput)]))
            ++ [ChatNode.message "model" ("Error: " ++ httpErrorDetail status detail)])
        promptInput := ""
        sendButtonDisabled := false
        promptInputDisabled := false
        historyList := st.historyList
        currentConversationId := st.currentConversationId
        isLoading := false
        networkLog := st.networkLog
          ++ [Request.postChat (jsTrim st.promptInput) st.currentConversationId] } := by
  have hc : (jsTrim st.promptInput == "" || st.isLoading) = false := by simp [h, hp]
  simp [sendPrompt, hc, setLoading, addLoadingIndicator, addMessage, removeLoadingIndicator]

theorem sendPrompt_reject_eq (st : UIState) (msg : String) (hist : HistoryFetchResult)
    (h : st.isLoading = false) (hp : jsTrim st.promptInput ≠ "") :
    sendPrompt st (ChatFetchResult.reject msg) hist =
      { chatOutput := removeIndicatorList (removeIndicatorList
            (st.chatOutput ++ [ChatNode.loadingIndicator,
              ChatNode.message "user" (jsTrim st.promptInput)])
            ++ [ChatNode.message "model" ("Error: " ++ msg)])
        promptInput := ""
        sendButtonDisabled := false
        promptInputDisabled := false
        historyList := st.historyList
        currentConversationId := st.currentConversationId
        isLoading := false
        networkLog := st.networkLog
          ++ [Request.postChat (jsTrim st.promptInput) st.currentConversationId] } := by
  have hc : (jsTrim st.promptInput == "" || st.isLoading) = false := by simp [h, hp]
  simp [sendPrompt, hc, setLoading, addLoadingIndicator, addMessage, removeLoadingIndicator]

theorem sendPrompt_ok_same_eq (st : UIState) (resp : String) (hist : HistoryFetchResult)
    (h : st.isLoading = false) (hp : jsTrim st.promptInput ≠ "") :
    sendPrompt st (ChatFetchResult.ok resp st.currentConversationId) hist =
      { chatOutput := removeIndicatorList (removeIndicatorList
            (st.chatOutput ++ [ChatNode.loadingIndicator,
              ChatNode.message "user" (jsTrim st.promptInput)])
            ++ [ChatNode.message "model" resp])
        promptInput := ""
        sendButtonDisabled := false
        promptInputDisabled := false
        historyList := st.historyList
        currentConversationId := st.currentConversationId
        isLoading := false
        networkLog := st.networkLog
          ++ [Request.postChat (jsTrim st.promptInput) st.currentConversationId] } := by
  have hc : (jsTrim st.promptInput == "" || st.isLoading) = false := by simp [h, hp]
  simp [sendPrompt, hc, setLoading, addLoadingIndicator, addMessage, removeLoadingIndicator]

theorem sendPrompt_ok_new_eq (st : UIState) (resp : String) (newCid : Option String)
    (hist : HistoryFetchResult) (h : st.isLoading = false)
    (hp : jsTrim st.promptInput ≠ "") (hcid : st.currentConversationId ≠ newCid) :
    sendPrompt st (ChatFetchResult.ok resp newCid) hist =
      { chatOutput := removeIndicatorList (removeIndicatorList
            (st.chatOutput ++ [ChatNode.loadingIndicator,
              ChatNode.message "user" (jsTrim st.promptInput)])
            ++ [ChatNode.message "model" resp])
        promptInput := ""
        sendButtonDisabled := false
        promptInputDisabled := false
        historyList :=
          (match hist with
            | HistoryFetchResult.ok convs => renderHistory convs newCid
            | HistoryFetchResult.failure =>
                [HistoryItem.placeholder "Error loading history."]).map (setActiveOpt newCid)
        currentConversationId := newCid
        isLoading := false
        networkLog := st.networkLog
          ++ [Request.postChat (jsTrim st.promptInput) st.currentConversationId,
              Request.getHistory] } := by
  have hc : (jsTrim st.promptInput == "" || st.isLoading) = false := by simp [h, hp]
  have hcid' : (st.currentConversationId == newCid) = false := by simp [hcid]
  cases hist <;>
    simp [sendPrompt, hc, hcid', setLoading, addLoadingIndicator, addMessage,
      removeLoadingIndicator, loadHistoryList]

/-! ### Characterization of `loadConversation` and auxiliary facts -/

theorem indicatorFree_map_messages (msgs : List MessageData) :
    indicatorFree (msgs.map fun m => ChatNode.message m.role m.text) = true := by
  induction msgs with
  | nil => rfl
  | cons m rest ih => simpa [indicatorFree] using ih

theorem loadConversation_eq (st : UIState) (cid : String) (outcome : ConvFetchResult)
    (h : st.isLoading = false) :
    loadConversation st cid outcome =
      { chatOutput := ChatNode.message "model" "Started a new chat." ::
          (match outcome with
            | ConvFetchResult.ok msgs => msgs.map fun m => ChatNode.message m.role m.text
            | ConvFetchResult.http status =>
                if status == 404 then
                  [ChatNode.message "model" "Error: Conversation not found."]
                else
                  [ChatNode.message "model"
                    ("Error loading conversation: HTTP error! status: " ++ toString status)]
            | ConvFetchResult.reject msg =>
                [ChatNode.message "model" ("Error loading conversation: " ++ msg)])
        promptInput := st.promptInput
        sendButtonDisabled := false
        promptInputDisabled := false
        historyList := st.historyList.map (setActiveOpt (some cid))
        currentConversationId := some cid
        isLoading := false
        networkLog := st.networkLog ++ [Request.getConversation cid] } := by
  cases outcome with
  | ok msgs =>
    simp only [loadConversation, foldl_addMessage]
    simp [h, setLoading, addLoadingIndicator, clearChatOutput, addMessage,
      removeLoadingIndicator, removeIndicatorList_of_free, indicatorFree,
      indicatorFree_map_messages]
  | http status =>
    by_cases h4 : status = 404
    · subst h4
      simp [loadConversation, h, setLoading, addLoadingIndicator, clearChatOutput,
        addMessage, removeLoadingIndicator, removeIndicatorList]
    · have h4' : (status == 404) = false := by simp [h4]
      simp [loadConversation, h, h4', setLoading, addLoadingIndicator, clearChatOutput,
        addMessage, removeLoadingIndicator, removeIndicatorList]
  | reject msg =>
    simp [loadConversation, h, setLoading, addLoadingIndicator, clearChatOutput,
      addMessage, removeLoadingIndicator, removeIndicatorList]

theorem interactive_chat_free₂ (c : List ChatNode) (hfree : indicatorFree c = true)
    (u t : String) :
    indicatorFree (removeIndicatorList (removeIndicatorList
      (c ++ [ChatNode.loadingIndicator, ChatNode.message "user" u])
      ++ [ChatNode.message "model" t])) = true := by
  rw [removeIndicatorList_append_of_free _ _ hfree]
  have hfree2 : indicatorFree ((c ++ removeIndicatorList
      [ChatNode.loadingIndicator, ChatNode.message "user" u])
      ++ [ChatNode.message "model" t]) = true := by
    simp [removeIndicatorList, indicatorFree_append, hfree, indicatorFree]
  rw [removeIndicatorList_of_free _ hfree2]
  exact hfree2

theorem interactive_chat_free₃ (c : List ChatNode) (hfree : indicatorFree c = true)
    (u t : String) :
    indicatorFree (removeIndicatorList (removeIndicatorList (removeIndicatorList
      (c ++ [ChatNode.loadingIndicator, ChatNode.message "user" u]))
      ++ [ChatNode.message "model" t])) = true := by
  rw [removeIndicatorList_append_of_free _ _ hfree]
  have hfree1 : indicatorFree (c ++ removeIndicatorList
      [ChatNode.loadingIndicator, ChatNode.message "user" u]) = true := by
    simp [removeIndicatorList, indicatorFree_append, hfree, indicatorFree]
  rw [removeIndicatorList_of_free _ hfree1]
  have hfree2 : indicatorFree ((c ++ removeIndicatorList
      [ChatNode.loadingIndicator, ChatNode.message "user" u])
      ++ [ChatNode.message "model" t]) = true := by
    simp [removeIndicatorList, indicatorFree_append, hfree, indicatorFree]
  rw [removeIndicatorList_of_free _ hfree2]
  exact hfree2

theorem setActiveOpt_renderHistory (convs : List ConvSummary) (cur : Option String) :
    (renderHistory convs cur).map (setActiveOpt cur) = renderHistory convs cur := by
  by_cases he : convs.isEmpty
  · simp [renderHistory, he, setActiveOpt]
  · simp [renderHistory, he, setActiveOpt]

theorem renderHistory_active_iff (convs : List ConvSummary) (c : String)
    (i : HistoryItem) (hi : i ∈ renderHistory convs (some c)) :
    itemActive i = true ↔ itemId i = some c := by
  by_cases he : convs.isEmpty
  · simp [renderHistory, he] at hi
    subst hi
    simp [itemActive, itemId]
  · simp [renderHistory, he, List.mem_map] at hi
    obtain ⟨cs, hcs, rfl⟩ := hi
    simp [itemActive, itemId]

theorem renderHistory_mem_active (convs : List ConvSummary) (c : String)
    (hc : ∃ cs ∈ convs, cs.id = c) :
    ∃ i ∈ renderHistory convs (some c), itemActive i = true ∧ itemId i = some c := by
  obtain ⟨cs, hcs, hid⟩ := hc
  have he : convs.isEmpty = false := by
    cases convs with
    | nil => simp at hcs
    | cons a l => rfl
  refine ⟨HistoryItem.entry cs.id cs.summary
      ("ID: " ++ cs.id ++ "\nLast Modified: " ++ cs.last_modified) (some cs.id == some c),
    ?_, ?_, ?_⟩
  · have hr : renderHistory convs (some c) = convs.map fun x =>
        HistoryItem.entry x.id x.summary
          ("ID: " ++ x.id ++ "\nLast Modified: " ++ x.last_modified) (some x.id == some c) := by
      simp [renderHistory, he]
    rw [hr]
    exact List.mem_map.mpr ⟨cs, hcs, rfl⟩
  · simp [itemActive, hid]
  · simp [itemId, hid]

/-! ### Claim theorems -/

/-- Claim C3: while `isLoading` is true, invoking `sendPrompt`,
`loadConversation` or `startNewChat` is a no-op — the whole state (transcript,
input field, `currentConversationId`, history panel, network log) is
unchanged, for every possible network outcome — so a second attempt while a
chat request is in flight is ignored and at most one request to the chat
endpoint is ever in flight at a time. -/
theorem claim_loading_guard_noop (st : UIState) (o : ChatFetchResult)
    (hist : HistoryFetchResult) (cid : String) (oc : ConvFetchResult)
    (h : st.isLoading = true) :
    sendPrompt st o hist = st ∧ loadConversation st cid oc = st
      ∧ startNewChat st = st := by
  refine ⟨?_, ?_, ?_⟩ <;> simp [sendPrompt, loadConversation, startNewChat, h]

/-- Witness for C3 at a concrete busy state. -/
theorem claim_loading_guard_noop_witness :
    loadingState.isLoading = true
    ∧ (sendPrompt loadingState (ChatFetchResult.ok "hello!" (some "c1"))
          (HistoryFetchResult.ok c1History) = loadingState
      ∧ loadConversation loadingState "c1" (ConvFetchResult.http 404) = loadingState
      ∧ startNewChat loadingState = loadingState) :=
  ⟨rfl, claim_loading_guard_noop loadingState (ChatFetchResult.ok "hello!" (some "c1"))
    (HistoryFetchResult.ok c1History) "c1" (ConvFetchResult.http 404) rfl⟩

/-- Claim C4: when `isLoading` is false, `startNewChat` sets
`currentConversationId` to `null`, resets the transcript to exactly the one
placeholder message, clears the input field, removes the `active` highlight
from every history entry, and issues no network request. -/
theorem claim_startNewChat_resets (st : UIState) (h : st.isLoading = false) :
    (startNewChat st).currentConversationId = none
    ∧ (startNewChat st).chatOutput = [ChatNode.message "model" "Started a new chat."]
    ∧ (startNewChat st).promptInput = ""
    ∧ (startNewChat st).historyList = st.historyList.map deactivate
    ∧ (∀ i ∈ (startNewChat st).historyList, itemActive i = false)
    ∧ (startNewChat st).networkLog = st.networkLog := by
  have hmain : startNewChat st =
      { st with
        currentConversationId := none
        chatOutput := [ChatNode.message "model" "Started a new chat."]
        promptInput := ""
        historyList := st.historyList.map deactivate } := by
    simp [startNewChat, h, clearChatOutput, addMessage]
  rw [hmain]
  refine ⟨rfl, rfl, rfl, rfl, ?_, rfl⟩
  intro i hi
  simp only [List.mem_map] at hi
  obtain ⟨j, hj, rfl⟩ := hi
  cases j <;> simp [deactivate, itemActive]

/-- Witness for C4 at a concrete idle state. -/
theorem claim_startNewChat_resets_witness :
    promptState.isLoading = false
    ∧ ((startNewChat promptState).currentConversationId = none
      ∧ (startNewChat promptState).chatOutput
          = [ChatNode.message "model" "Started a new chat."]
      ∧ (startNewChat promptState).promptInput = ""
      ∧ (startNewChat promptState).historyList = promptState.historyList.map deactivate
      ∧ (∀ i ∈ (startNewChat promptState).historyList, itemActive i = false)
      ∧ (startNewChat promptState).networkLog = promptState.networkLog) :=
  ⟨rfl, claim_startNewChat_resets promptState rfl⟩

/-- Claim C7: with a fixed backend history response and a fixed
`currentConversationId`, rendering the history list is idempotent — a second
`loadHistoryList` call yields exactly the same rendered list (same entries,
same order, same active item). -/
theorem claim_loadHistoryList_idempotent (st : UIState) (o : HistoryFetchResult) :
    (loadHistoryList (loadHistoryList st o) o).historyList
      = (loadHistoryList st o).historyList := by
  cases o <;> simp [loadHistoryList]

/-- Claim C5: `addMessage(role, text)` appends exactly one node whose visible
text is the role label, a space, and the literal text — `You: hello` for
`addMessage('user', 'hello')` — and the text is inserted as a text node, so a
string such as an HTML script tag appears literally instead of being parsed
as markup. -/
theorem claim_addMessage_renders (st : UIState) (text : String) :
    ((addMessage st "user" text).chatOutput
        = st.chatOutput ++ [ChatNode.message "user" text]
      ∧ visibleText (ChatNode.message "user" text) = "You: " ++ text)
    ∧ ((addMessage st "model" text).chatOutput
        = st.chatOutput ++ [ChatNode.message "model" text]
      ∧ visibleText (ChatNode.message "model" text) = "Model: " ++ text)
    ∧ visibleText (ChatNode.message "user" "hello") = "You: hello"
    ∧ visibleText (ChatNode.message "user" "<script>alert(1)</script>")
        = "You: <script>alert(1)</script>" := by
  have hu : roleLabel "user" = "You:" := by decide
  have hm : roleLabel "model" = "Model:" := by decide
  have h1 : ("You:" ++ " " : String) = "You: " := by decide
  have h2 : ("Model:" ++ " " : String) = "Model: " := by decide
  refine ⟨⟨rfl, ?_⟩, ⟨rfl, ?_⟩, ?_, ?_⟩
  · simp [visibleText, hu, h1]
  · simp [visibleText, hm, h2]
  · decide
  · decide

/-- Claim C1 (amended): loading a conversation the backend reports as 404
while not loading leaves the transcript containing exactly two messages — the
`Started a new chat.` placeholder re-seeded when the transcript is cleared,
followed by one message with role `model` and text indicating the conversation
was not found — and sets `currentConversationId` to the requested id. -/
theorem claim_load404_transcript (st : UIState) (cid : String)
    (h : st.isLoading = false) :
    (loadConversation st cid (ConvFetchResult.http 404)).chatOutput
      = [ChatNode.message "model" "Started a new chat.",
         ChatNode.message "model" "Error: Conversation not found."]
    ∧ (loadConversation st cid (ConvFetchResult.http 404)).currentConversationId
        = some cid := by
  rw [loadConversation_eq st cid (ConvFetchResult.http 404) h]
  exact ⟨rfl, rfl⟩

/-- Counterexample for C1 as stated: after a 404 load from the empty initial
state the transcript holds two messages, not exactly one. -/
theorem claim_load404_counterexample :
    (messagesOf (loadConversation initState "c9" (ConvFetchResult.http 404)).chatOutput).length
      ≠ 1 := by decide

/-- Witness for the amended C1 at a concrete state. -/
theorem claim_load404_transcript_witness :
    initState.isLoading = false
    ∧ ((loadConversation initState "c9" (ConvFetchResult.http 404)).chatOutput
        = [ChatNode.message "model" "Started a new chat.",
           ChatNode.message "model" "Error: Conversation not found."]
      ∧ (loadConversation initState "c9" (ConvFetchResult.http 404)).currentConversationId
          = some "c9") :=
  ⟨rfl, claim_load404_transcript initState "c9" rfl⟩

/-- Claim C2: sending a non-empty (after trimming) prompt while not loading
appends exactly one user message carrying the trimmed prompt, and after the
call settles the transcript has gained exactly one further message — the
model's reply on success, an error message on HTTP failure or rejection —
never both and never neither. -/
theorem claim_send_transcript_delta (st : UIState) (o : ChatFetchResult)
    (hist : HistoryFetchResult) (h : st.isLoading = false)
    (hp : jsTrim st.promptInput ≠ "") :
    ∃ t : String,
      messagesOf (sendPrompt st o hist).chatOutput
        = messagesOf st.chatOutput
            ++ [ChatNode.message "user" (jsTrim st.promptInput),
                ChatNode.message "model" t]
      ∧ (∀ resp newCid, o = ChatFetchResult.ok resp newCid → t = resp)
      ∧ (∀ status detail, o = ChatFetchResult.http status detail →
          t = "Error: " ++ httpErrorDetail status detail)
      ∧ (∀ msg, o = ChatFetchResult.reject msg → t = "Error: " ++ msg) := by
  cases o with
  | ok resp newCid =>
    refine ⟨resp, ?_, ?_, ?_, ?_⟩
    · by_cases hcid : st.currentConversationId = newCid
      · subst hcid
        rw [sendPrompt_ok_same_eq st resp hist h hp]
        simp only [messagesOf_removeIndicatorList, messagesOf_append]
        simp [messagesOf, ChatNode.isMessage]
      · rw [sendPrompt_ok_new_eq st resp newCid hist h hp hcid]
        simp only [messagesOf_removeIndicatorList, messagesOf_append]
        simp [messagesOf, ChatNode.isMessage]
    · intro r c hrc
      cases hrc
      rfl
    · intro s d hx
      exact absurd hx (by simp)
    · intro m hx
      exact absurd hx (by simp)
  | http status detail =>
    refine ⟨"Error: " ++ httpErrorDetail status detail, ?_, ?_, ?_, ?_⟩
    · rw [sendPrompt_http_eq st status detail hist h hp]
      simp only [messagesOf_removeIndicatorList, messagesOf_append]
      simp [messagesOf, ChatNode.isMessage]
    · intro r c hx
      exact absurd hx (by simp)
    · intro s d hx
      cases hx
      rfl
    · intro m hx
      exact absurd hx (by simp)
  | reject msg =>
    refine ⟨"Error: " ++ msg, ?_, ?_, ?_, ?_⟩
    · rw [sendPrompt_reject_eq st msg hist h hp]
      simp only [messagesOf_removeIndicatorList, messagesOf_append]
      simp [messagesOf, ChatNode.isMessage]
    · intro r c hx
      exact absurd hx (by simp)
    · intro s d hx
      exact absurd hx (by simp)
    · intro m hx
      cases hx
      rfl

/-- Witness for C2 at a concrete send. -/
theorem claim_send_transcript_delta_witness :
    promptState.isLoading = false ∧ jsTrim promptState.promptInput ≠ ""
    ∧ ∃ t : String,
      messagesOf (sendPrompt promptState (ChatFetchResult.ok "hello!" (some "c1"))
          (HistoryFetchResult.ok c1History)).chatOutput
        = messagesOf promptState.chatOutput
            ++ [ChatNode.message "user" (jsTrim promptState.promptInput),
                ChatNode.message "model" t]
      ∧ (∀ resp newCid,
          ChatFetchResult.ok "hello!" (some "c1") = ChatFetchResult.ok resp newCid → t = resp)
      ∧ (∀ status detail,
          ChatFetchResult.ok "hello!" (some "c1") = ChatFetchResult.http status detail →
          t = "Error: " ++ httpErrorDetail status detail)
      ∧ (∀ msg,
          ChatFetchResult.ok "hello!" (some "c1") = ChatFetchResult.reject msg →
          t = "Error: " ++ msg) :=
  ⟨rfl, by decide,
    claim_send_transcript_delta promptState (ChatFetchResult.ok "hello!" (some "c1"))
      (HistoryFetchResult.ok c1History) rfl (by decide)⟩

/-- Claim C8: whatever the settled outcome of the network call — success, any
non-2xx status, or a rejection — both `sendPrompt` and `loadConversation` end
with the loading state cleared: `isLoading` is false, the loading indicator is
gone from the transcript, and the send button and input field are re-enabled,
so no failure leaves the UI non-interactive. -/
theorem claim_loading_always_cleared (st : UIState) (o : ChatFetchResult)
    (hist : HistoryFetchResult) (cid : String) (oc : ConvFetchResult)
    (h : st.isLoading = false) (hfree : indicatorFree st.chatOutput = true)
    (hp : jsTrim st.promptInput ≠ "") :
    interactive (sendPrompt st o hist) ∧ interactive (loadConversation st cid oc) := by
  constructor
  · cases o with
    | ok resp newCid =>
      by_cases hcid : st.currentConversationId = newCid
      · subst hcid
        rw [sendPrompt_ok_same_eq st resp hist h hp]
        exact ⟨rfl, rfl, rfl, interactive_chat_free₂ st.chatOutput hfree _ _⟩
      · rw [sendPrompt_ok_new_eq st resp newCid hist h hp hcid]
        exact ⟨rfl, rfl, rfl, interactive_chat_free₂ st.chatOutput hfree _ _⟩
    | http status detail =>
      rw [sendPrompt_http_eq st status detail hist h hp]
      exact ⟨rfl, rfl, rfl, interactive_chat_free₃ st.chatOutput hfree _ _⟩
    | reject msg =>
      rw [sendPrompt_reject_eq st msg hist h hp]
      exact ⟨rfl, rfl, rfl, interactive_chat_free₂ st.chatOutput hfree _ _⟩
  · rw [loadConversation_eq st cid oc h]
    refine ⟨rfl, rfl, rfl, ?_⟩
    cases oc with
    | ok msgs => simpa [indicatorFree] using indicatorFree_map_messages msgs
    | http status =>
      by_cases h4 : status = 404 <;> simp [h4, indicatorFree]
    | reject msg => simp [indicatorFree]

/-- Witness for C8 at a concrete failing send and a concrete failing load. -/
theorem claim_loading_always_cleared_witness :
    promptState.isLoading = false ∧ indicatorFree promptState.chatOutput = true
    ∧ jsTrim promptState.promptInput ≠ ""
    ∧ (interactive (sendPrompt promptState (ChatFetchResult.reject "Failed to fetch")
          HistoryFetchResult.failure)
      ∧ interactive (loadConversation promptState "c1" (ConvFetchResult.reject "Failed to fetch"))) :=
  ⟨rfl, rfl, by decide,
    claim_loading_always_cleared promptState (ChatFetchResult.reject "Failed to fetch")
      HistoryFetchResult.failure "c1" (ConvFetchResult.reject "Failed to fetch")
      rfl rfl (by decide)⟩

/-- Claim C9 (amended): on a non-2xx response to a send, if the body parsed to
JSON with a truthy `detail` field the appended error message is
`Error: <detail>`, showing that detail string; otherwise (no parseable JSON
body, missing `detail`, or empty `detail`) the appended message is the generic
status-based `Error: HTTP error! status: <status>`. -/
theorem claim_send_http_error_text (st : UIState) (status : Nat)
    (detail : Option String) (hist : HistoryFetchResult)
    (h : st.isLoading = false) (hp : jsTrim st.promptInput ≠ "") :
    messagesOf (sendPrompt st (ChatFetchResult.http status detail) hist).chatOutput
      = messagesOf st.chatOutput
          ++ [ChatNode.message "user" (jsTrim st.promptInput),
              ChatNode.message "model" ("Error: " ++ httpErrorDetail status detail)]
    ∧ (∀ d, detail = some d → d ≠ "" → httpErrorDetail status detail = d)
    ∧ ((detail = none ∨ detail = some "") →
        httpErrorDetail status detail = "HTTP error! status: " ++ toString status) := by
  refine ⟨?_, ?_, ?_⟩
  · rw [sendPrompt_http_eq st status detail hist h hp]
    simp only [messagesOf_removeIndicatorList, messagesOf_append]
    simp [messagesOf, ChatNode.isMessage]
  · rintro d rfl hd
    simp [httpErrorDetail, hd]
  · rintro (rfl | rfl) <;> simp [httpErrorDetail]

/-- Counterexample for C9 as stated: at a concrete 500 response with an
unparseable body the transcript gains `Error: HTTP error! status: 500`; no
message of the form `HTTP error: <status>` is shown. -/
theorem claim_send_http_error_counterexample :
    messagesOf (sendPrompt promptState (ChatFetchResult.http 500 none)
        HistoryFetchResult.failure).chatOutput
      = [ChatNode.message "user" "hi",
         ChatNode.message "model" "Error: HTTP error! status: 500"]
    ∧ ∀ n ∈ messagesOf (sendPrompt promptState (ChatFetchResult.http 500 none)
        HistoryFetchResult.failure).chatOutput,
        n ≠ ChatNode.message "model" ("HTTP error: " ++ toString 500) := by
  decide

/-- Witness for the amended C9 at a concrete 503 response carrying a detail. -/
theorem claim_send_http_error_text_witness :
    promptState.isLoading = false ∧ jsTrim promptState.promptInput ≠ ""
    ∧ (messagesOf (sendPrompt promptState (ChatFetchResult.http 503 (some "Model busy"))
          HistoryFetchResult.failure).chatOutput
        = messagesOf promptState.chatOutput
            ++ [ChatNode.message "user" (jsTrim promptState.promptInput),
                ChatNode.message "model"
                  ("Error: " ++ httpErrorDetail 503 (some "Model busy"))]
      ∧ (∀ d, (some "Model busy" : Option String) = some d → d ≠ "" →
          httpErrorDetail 503 (some "Model busy") = d)
      ∧ (((some "Model busy" : Option String) = none
            ∨ (some "Model busy" : Option String) = some "") →
          httpErrorDetail 503 (some "Model busy")
            = "HTTP error! status: " ++ toString 503)) :=
  ⟨rfl, by decide,
    claim_send_http_error_text promptState 503 (some "Model busy")
      HistoryFetchResult.failure rfl (by decide)⟩

/-- Claim C10: a successful send whose returned `conversation_id` equals the
current one leaves the history panel untouched — no refetch is issued (the
network log gains only the chat POST) and no re-highlighting happens — and
`currentConversationId` is unchanged. -/
theorem claim_send_same_id_frame (st : UIState) (resp : String)
    (hist : HistoryFetchResult) (h : st.isLoading = false)
    (hp : jsTrim st.promptInput ≠ "") :
    (sendPrompt st (ChatFetchResult.ok resp st.currentConversationId) hist).historyList
        = st.historyList
    ∧ (sendPrompt st (ChatFetchResult.ok resp st.currentConversationId) hist).currentConversationId
        = st.currentConversationId
    ∧ (sendPrompt st (ChatFetchResult.ok resp st.currentConversationId) hist).networkLog
        = st.networkLog
          ++ [Request.postChat (jsTrim st.promptInput) st.currentConversationId] := by
  rw [sendPrompt_ok_same_eq st resp hist h hp]
  exact ⟨rfl, rfl, rfl⟩

/-- Witness for C10 at a concrete send answered with the same (null) id. -/
theorem claim_send_same_id_frame_witness :
    promptState.isLoading = false ∧ jsTrim promptState.promptInput ≠ ""
    ∧ ((sendPrompt promptState
          (ChatFetchResult.ok "hello!" promptState.currentConversationId)
          (HistoryFetchResult.ok c1History)).historyList = promptState.historyList
      ∧ (sendPrompt promptState
          (ChatFetchResult.ok "hello!" promptState.currentConversationId)
          (HistoryFetchResult.ok c1History)).currentConversationId
          = promptState.currentConversationId
      ∧ (sendPrompt promptState
          (ChatFetchResult.ok "hello!" promptState.currentConversationId)
          (HistoryFetchResult.ok c1History)).networkLog
          = promptState.networkLog
            ++ [Request.postChat (jsTrim promptState.promptInput)
                  promptState.currentConversationId]) :=
  ⟨rfl, by decide,
    claim_send_same_id_frame promptState "hello!" (HistoryFetchResult.ok c1History)
      rfl (by decide)⟩

/-- Claim C6: a send performed with `currentConversationId = null` whose POST
succeeds with `{response: "hello!", conversation_id: "c1"}` appends the user
message `hi` and the model message `hello!`, adopts `c1` as
`currentConversationId`, and refetches the history list, in which the new
conversation — and only it — is marked active. -/
theorem claim_send_new_conversation (st : UIState) (convs : List ConvSummary)
    (h : st.isLoading = false) (hprompt : st.promptInput = "hi")
    (hcur : st.currentConversationId = none)
    (hconv : ∃ cs ∈ convs, cs.id = "c1") :
    messagesOf (sendPrompt st (ChatFetchResult.ok "hello!" (some "c1"))
        (HistoryFetchResult.ok convs)).chatOutput
      = messagesOf st.chatOutput
          ++ [ChatNode.message "user" "hi", ChatNode.message "model" "hello!"]
    ∧ (sendPrompt st (ChatFetchResult.ok "hello!" (some "c1"))
        (HistoryFetchResult.ok convs)).currentConversationId = some "c1"
    ∧ (sendPrompt st (ChatFetchResult.ok "hello!" (some "c1"))
        (HistoryFetchResult.ok convs)).networkLog
        = st.networkLog ++ [Request.postChat "hi" none, Request.getHistory]
    ∧ (sendPrompt st (ChatFetchResult.ok "hello!" (some "c1"))
        (HistoryFetchResult.ok convs)).historyList = renderHistory convs (some "c1")
    ∧ (∀ i ∈ (sendPrompt st (ChatFetchResult.ok "hello!" (some "c1"))
        (HistoryFetchResult.ok convs)).historyList,
        itemActive i = true ↔ itemId i = some "c1")
    ∧ (∃ i ∈ (sendPrompt st (ChatFetchResult.ok "hello!" (some "c1"))
        (HistoryFetchResult.ok convs)).historyList,
        itemActive i = true ∧ itemId i = some "c1") := by
  have htrim : jsTrim st.promptInput = "hi" := by rw [hprompt]; decide
  have hp : jsTrim st.promptInput ≠ "" := by rw [htrim]; decide
  have hne : st.currentConversationId ≠ some "c1" := by rw [hcur]; simp
  rw [sendPrompt_ok_new_eq st "hello!" (some "c1") (HistoryFetchResult.ok convs) h hp hne]
  have hlist : ((match HistoryFetchResult.ok convs with
      | HistoryFetchResult.ok convs => renderHistory convs (some "c1")
      | HistoryFetchResult.failure =>
          [HistoryItem.placeholder "Error loading history."]).map
        (setActiveOpt (some "c1")) : List HistoryItem)
      = renderHistory convs (some "c1") := setActiveOpt_renderHistory convs (some "c1")
  refine ⟨?_, rfl, ?_, ?_, ?_, ?_⟩
  · simp only [messagesOf_removeIndicatorList, messagesOf_append]
    simp [messagesOf, ChatNode.isMessage, htrim]
  · rw [htrim, hcur]
  · exact hlist
  · intro i hi
    rw [hlist] at hi
    exact renderHistory_active_iff convs "c1" i hi
  · rw [hlist]
    exact renderHistory_mem_active convs "c1" hconv

/-- Witness for C6 at a concrete state and backend response. -/
theorem claim_send_new_conversation_witness :
    promptState.isLoading = false ∧ promptState.promptInput = "hi"
    ∧ promptState.currentConversationId = none
    ∧ (∃ cs ∈ c1History, cs.id = "c1")
    ∧ (messagesOf (sendPrompt promptState (ChatFetchResult.ok "hello!" (some "c1"))
          (HistoryFetchResult.ok c1History)).chatOutput
        = messagesOf promptState.chatOutput
            ++ [ChatNode.message "user" "hi", ChatNode.message "model" "hello!"]
      ∧ (sendPrompt promptState (ChatFetchResult.ok "hello!" (some "c1"))
          (HistoryFetchResult.ok c1History)).currentConversationId = some "c1"
      ∧ (sendPrompt promptState (ChatFetchResult.ok "hello!" (some "c1"))
          (HistoryFetchResult.ok c1History)).networkLog
          = promptState.networkLog ++ [Request.postChat "hi" none, Request.getHistory]
      ∧ (sendPrompt promptState (ChatFetchResult.ok "hello!" (some "c1"))
          (HistoryFetchResult.ok c1History)).historyList
          = renderHistory c1History (some "c1")
      ∧ (∀ i ∈ (sendPrompt promptState (ChatFetchResult.ok "hello!" (some "c1"))
          (HistoryFetchResult.ok c1History)).historyList,
          itemActive i = true ↔ itemId i = some "c1")
      ∧ (∃ i ∈ (sendPrompt promptState (ChatFetchResult.ok "hello!" (some "c1"))
          (HistoryFetchResult.ok c1History)).historyList,
          itemActive i = true ∧ itemId i = some "c1")) :=
  ⟨rfl, rfl, rfl, by decide,
    claim_send_new_conversation promptState c1History rfl rfl rfl (by decide)⟩
